import Mathlib

/-!
# Verification of the geargrid backend write protocols

A shallow embedding of the request handlers of the geargrid backend
(`server.js`, `routes/carBuilds.js`, `routes/follows.js`,
`middleware/ensureAuthenticated.js`) together with proofs about the
transactional write protocols, ownership checks, validation rules and
reconciliation algorithms they implement.

The relational store is modelled as explicit lists of rows; SQL statement
failures are injected through an `ExecOutcome` schedule so that
transactional (rollback) and non-transactional code paths can be
distinguished.  JavaScript values that flow through loose comparisons are
modelled by `JsVal` with ECMAScript truthiness and numeric coercion for
the decimal inputs that actually reach these handlers.
-/

/-! ## JavaScript value model -/

/-- A JavaScript value as it arrives in a JSON request body.  Numbers are
modelled as rationals (the handlers only ever compare them), strings as
Lean strings. -/
inductive JsVal where
  | num (q : ℚ)
  | str (s : String)
  | jbool (b : Bool)
  | nullV
  | undefV
deriving Repr, DecidableEq

/-- ECMAScript ToBoolean on a `JsVal`. -/
def JsVal.truthy : JsVal → Bool
  | .num q => q != 0
  | .str s => s != ""
  | .jbool b => b
  | .nullV => false
  | .undefV => false

/-- Value of a nonempty list of decimal digits, `none` on any non-digit. -/
def parseNatDigits : List Char → Option ℕ
  | [] => none
  | cs =>
    cs.foldl
      (fun acc c =>
        acc.bind fun n => if c.isDigit then some (n * 10 + (c.toNat - 48)) else none)
      (some 0)

/-- Whitespace trimming on a character list (structural, so that proofs
can evaluate it). -/
def trimWs (cs : List Char) : List Char :=
  ((cs.dropWhile Char.isWhitespace).reverse.dropWhile Char.isWhitespace).reverse

/-- Split a character list at every `'.'`. -/
def splitDot : List Char → List (List Char)
  | [] => [[]]
  | c :: rest =>
    if c = '.' then [] :: splitDot rest
    else
      match splitDot rest with
      | [] => [[c]]
      | h :: t => (c :: h) :: t

/-- ECMAScript ToNumber on a string, restricted to the plain decimal
literals (optional sign, digits, optional fraction) that the modelled
handlers can receive; every other string is NaN (`none`).  The empty or
all-whitespace string converts to `0`, exactly as in ECMAScript. -/
def strToNumber (s : String) : Option ℚ :=
  let t := trimWs s.data
  if t = [] then some 0
  else
    let sign : ℚ := if t.head? = some '-' then -1 else 1
    let body :=
      if t.head? = some '-' || t.head? = some '+' then t.drop 1 else t
    match splitDot body with
    | [intPart] => (parseNatDigits intPart).map fun n => sign * n
    | [intPart, fracPart] =>
      if intPart = [] && fracPart = [] then none
      else
        match (if intPart = [] then some 0 else parseNatDigits intPart),
              (if fracPart = [] then some 0 else parseNatDigits fracPart) with
        | some i, some f => some (sign * ((i : ℚ) + (f : ℚ) / (10 : ℚ) ^ fracPart.length))
        | _, _ => none
    | _ => none

/-- ECMAScript ToNumber on a `JsVal`; `none` is NaN. -/
def JsVal.toNumber : JsVal → Option ℚ
  | .num q => some q
  | .str s => strToNumber s
  | .jbool b => some (if b then 1 else 0)
  | .nullV => some 0
  | .undefV => none

/-- The ECMAScript abstract relational comparison `a < b`: lexicographic
when both operands are strings, otherwise numeric with any NaN operand
making the comparison false. -/
def jsLt (a b : JsVal) : Bool :=
  match a, b with
  | .str x, .str y => decide (x < y)
  | _, _ =>
    match a.toNumber, b.toNumber with
    | some x, some y => decide (x < y)
    | _, _ => false

/-- The ECMAScript comparison `a > b`, i.e. the relational comparison with
the operands swapped. -/
def jsGt (a b : JsVal) : Bool := jsLt b a

/-- JavaScript `x || null` for an optional string (`undefined` and the
empty string are falsy, so both collapse to SQL NULL). -/
def orNull : Option String → Option String
  | some s => if s = "" then none else some s
  | none => none

/-- JavaScript `x || ''` for an optional string. -/
def orEmpty : Option String → String
  | some s => s
  | none => ""

/-! ## Event registration (`POST /api/register-event`)

The handler opens a dedicated connection, starts a transaction, inserts
the `event_registrations` parent row, checks its `insertId`, inserts one
`registered_cars` row per car, and commits; any failure rolls the
transaction back.  A MySQL `ER_DUP_ENTRY` on the
`event_registrations.event_id_email_unique` constraint is translated into
a dedicated message, every failure is reported with HTTP status 500. -/

/-- Environment-injected outcome of one SQL statement: success, success
without a usable `insertId`, or failure. -/
inductive ExecOutcome where
  | ok
  | okNoId
  | fail
deriving Repr, DecidableEq

/-- One car in the registration request body. -/
structure RegCar where
  make : String
  model : String
  year : String
  color : String
  mileage : String
  modified : String
deriving Repr, DecidableEq

/-- A row of `event_registrations`. -/
structure RegRow where
  id : ℕ
  event_id : ℕ
  user_id : ℕ
  name : String
  email : String
  phone : String
deriving Repr, DecidableEq

/-- A row of `registered_cars`. -/
structure CarRow where
  registration_id : ℕ
  make : String
  model : String
  year : String
  color : String
  mileage : String
  modified : String
deriving Repr, DecidableEq

/-- The store state touched by event registration, plus the
auto-increment counter of `event_registrations`. -/
structure RegDb where
  regs : List RegRow
  cars : List CarRow
  nextId : ℕ
deriving Repr, DecidableEq

/-- The body of `POST /api/register-event`; `userId = 0` models a falsy
(missing) caller-supplied user id. -/
structure RegRequest where
  firstName : Option String
  lastName : Option String
  email : String
  phone : String
  eventId : ℕ
  cars : List RegCar
  userId : ℕ
deriving Repr, DecidableEq

/-- The `registered_cars` row for one request car. -/
def RegCar.toRow (c : RegCar) (rid : ℕ) : CarRow :=
  ⟨rid, c.make, c.model, c.year, c.color, c.mileage, c.modified⟩

/-- Pre-check used to model the `event_id_email_unique` key: the parent
insert raises `ER_DUP_ENTRY` exactly when a row with the same
(event, email) pair already exists. -/
def hasDuplicateRegistration (st : RegDb) (eventId : ℕ) (email : String) : Bool :=
  st.regs.any fun r => r.event_id == eventId && r.email == email

/-- The duplicate-registration message produced by the handler's
`ER_DUP_ENTRY` translation branch. -/
def dupRegMessage : String := "This email is already registered for this event."

/-- The handler's generic failure message. -/
def genericRegError : String := "Registration failed due to a server error."

/-- The in-transaction loop inserting the `registered_cars` child rows;
statement `idx` onward of the schedule decides each insert, any failure
aborts (`none`). -/
def insertRegisteredCars (sched : ℕ → ExecOutcome) (rid : ℕ) :
    ℕ → List RegCar → Option (List CarRow)
  | _, [] => some []
  | idx, c :: rest =>
    match sched idx with
    | .fail => none
    | _ => (insertRegisteredCars sched rid (idx + 1) rest).map fun rows => c.toRow rid :: rows

/-- `POST /api/register-event`: transaction, parent insert (statement 0),
`insertId` check, child inserts (statements 1, 2, …), commit; every
failure path rolls back, so the initial state is returned unchanged.
Returns the final store state, the HTTP status and the response
message. -/
def registerEvent (sched : ℕ → ExecOutcome) (st : RegDb) (req : RegRequest) :
    RegDb × ℕ × String :=
  if req.userId == 0 then
    (st, 400, "User ID is missing. Cannot complete registration.")
  else if hasDuplicateRegistration st req.eventId req.email then
    -- the parent INSERT violates the unique key; rollback, then the
    -- ER_DUP_ENTRY branch of the catch produces the translated message
    (st, 500, dupRegMessage)
  else
    match sched 0 with
    | .fail => (st, 500, genericRegError)
    | .okNoId =>
      -- `insertId` is falsy: the handler throws, the transaction rolls back
      (st, 500, genericRegError)
    | .ok =>
      let rid := st.nextId
      let parent : RegRow :=
        ⟨rid, req.eventId, req.userId,
          (orEmpty req.firstName ++ " " ++ orEmpty req.lastName).trim,
          req.email, req.phone⟩
      match insertRegisteredCars sched rid 1 req.cars with
      | none => (st, 500, genericRegError)
      | some rows =>
        (⟨st.regs ++ [parent], st.cars ++ rows, st.nextId + 1⟩, 200, "Registration successful!")

/-- If the child-insert loop completes, it inserted exactly one row per
requested car, in order. -/
theorem insertRegisteredCars_eq (sched : ℕ → ExecOutcome) (rid : ℕ) :
    ∀ (cars : List RegCar) (idx : ℕ) (rows : List CarRow),
      insertRegisteredCars sched rid idx cars = some rows →
      rows = cars.map (fun c => c.toRow rid) := by
  intro cars
  induction cars with
  | nil =>
    intro idx rows h
    simp [insertRegisteredCars] at h
    simp [h.symm]
  | cons c rest ih =>
    intro idx rows h
    simp only [insertRegisteredCars] at h
    cases hs : sched idx with
    | fail => rw [hs] at h; simp at h
    | ok =>
      rw [hs] at h
      simp only [Option.map_eq_some'] at h
      obtain ⟨rows0, h0, hrows⟩ := h
      simp [hrows.symm, List.map_cons, ih (idx + 1) rows0 h0]
    | okNoId =>
      rw [hs] at h
      simp only [Option.map_eq_some'] at h
      obtain ⟨rows0, h0, hrows⟩ := h
      simp [hrows.symm, List.map_cons, ih (idx + 1) rows0 h0]

/-- C1 (amended, EventRegistration half): `POST /api/register-event` is
atomic.  For every failure schedule, either the store is returned
unchanged, or the parent registration row and one `registered_cars` row
per requested car have all been appended. -/
theorem registerEvent_atomic (sched : ℕ → ExecOutcome) (st : RegDb) (req : RegRequest) :
    (registerEvent sched st req).1 = st ∨
    (registerEvent sched st req).1 =
      ⟨st.regs ++ [⟨st.nextId, req.eventId, req.userId,
          (orEmpty req.firstName ++ " " ++ orEmpty req.lastName).trim,
          req.email, req.phone⟩],
        st.cars ++ req.cars.map (fun c => c.toRow st.nextId), st.nextId + 1⟩ := by
  unfold registerEvent
  split
  · exact Or.inl rfl
  split
  · exact Or.inl rfl
  split
  · exact Or.inl rfl
  · exact Or.inl rfl
  · dsimp only
    split
    · exact Or.inl rfl
    · next rows hc =>
      right
      rw [insertRegisteredCars_eq sched st.nextId req.cars 1 rows hc]

/-- A store already holding a registration of `dup@x.com` for event 3. -/
def stDup : RegDb :=
  ⟨[⟨1, 3, 9, "A B", "dup@x.com", "555"⟩], [], 2⟩

/-- A second registration attempt for the same (event, email) pair. -/
def reqDup : RegRequest :=
  ⟨some "C", some "D", "dup@x.com", "777", 3, [], 4⟩

/-- C8 (amended): a duplicate (event, email) registration attempt is
rolled back, leaves the store unchanged, and is reported with the
translated domain message — but with HTTP status 500. -/
theorem registerEvent_duplicate_translated (sched : ℕ → ExecOutcome) (st : RegDb)
    (req : RegRequest) (h1 : req.userId ≠ 0)
    (h2 : hasDuplicateRegistration st req.eventId req.email = true) :
    registerEvent sched st req = (st, 500, dupRegMessage) := by
  unfold registerEvent
  simp [h1, h2]

theorem registerEvent_duplicate_translated_w :
    registerEvent (fun _ => ExecOutcome.ok) stDup reqDup = (stDup, 500, dupRegMessage) :=
  registerEvent_duplicate_translated _ _ _ (by decide) (by decide)

/-- C8 counterexample: the duplicate (event, email) attempt is answered
with HTTP status 500 — a generic server-failure status, not the 409 (or
domain-specific 400) that the claim requires — even though the message is
the translated one and the first registration is untouched. -/
theorem registerEvent_duplicate_is_500 :
    (registerEvent (fun _ => ExecOutcome.ok) stDup reqDup).2.1 = 500 ∧
    (500 : ℕ) ≠ 409 ∧ (500 : ℕ) ≠ 400 ∧
    (registerEvent (fun _ => ExecOutcome.ok) stDup reqDup).1 = stDup := by
  refine ⟨?_, by decide, by decide, ?_⟩ <;> rfl

/-! ## Car builds (`routes/carBuilds.js`)

`POST /api/builds` inserts the `builds` parent row and then its
`build_gallery` and `build_mods` children through plain `pool.execute`
calls: there is no `beginTransaction`, no rollback and no `insertId`
check, so rows written before a failing statement stay persisted.

`PUT /api/builds/:id` runs inside a transaction on a dedicated
connection: a `SELECT … FOR UPDATE` ownership check (a missing row and a
foreign owner both throw `NOT_OWNER`, answered with 403), scalar-field
update, cover recomputation, gallery reconciliation
(`DELETE … WHERE image_url NOT IN (…)` using the literal `__NONE__` when
the retain list is empty), and full delete-and-reinsert of the mods with
positional pairing of uploaded files. -/

/-- A row of `builds`. -/
structure BuildRow where
  id : ℕ
  user_id : ℕ
  ownership_status : String
  car_name : String
  model : String
  description : Option String
  body_style : Option String
  cover_image : Option String
  cover_image2 : Option String
deriving Repr, DecidableEq

/-- A row of `build_gallery`. -/
structure GalleryRow where
  build_id : ℕ
  image_url : String
deriving Repr, DecidableEq

/-- A row of `build_mods`. -/
structure ModRow where
  build_id : ℕ
  category : String
  sub_category : Option String
  mod_name : String
  image_url : Option String
  mod_note : Option String
deriving Repr, DecidableEq

/-- The store state touched by the build routes, plus the auto-increment
counter of `builds`. -/
structure BuildDb where
  builds : List BuildRow
  gallery : List GalleryRow
  mods : List ModRow
  nextBuildId : ℕ
deriving Repr, DecidableEq

/-- One entry of the parsed `mods` JSON of `POST /api/builds`. -/
structure CreateMod where
  main : String
  sub : Option String
  name : String
  details : Option String
deriving Repr, DecidableEq

/-- The parsed `POST /api/builds` request: body fields plus the uploaded
file names collected by multer, in transmission order. -/
structure CreateBuildRequest where
  userId : ℕ
  ownership : String
  car_name : String
  model : String
  description : Option String
  bodyStyle : Option String
  mods : List CreateMod
  coverFiles : List String
  galleryFiles : List String
  modFiles : List String
deriving Repr, DecidableEq

/-- The gallery-insert loop of `POST /api/builds`: each `pool.execute`
runs outside any transaction, so a failure stops the loop but keeps every
row already written.  Returns the state and whether the loop finished. -/
def insertGalleryNoTx (sched : ℕ → ExecOutcome) (bid : ℕ) :
    ℕ → List String → BuildDb → BuildDb × Bool
  | _, [], st => (st, true)
  | idx, url :: rest, st =>
    match sched idx with
    | .fail => (st, false)
    | _ =>
      insertGalleryNoTx sched bid (idx + 1) rest
        { st with gallery := st.gallery ++ [⟨bid, url⟩] }

/-- The mod-insert loop of `POST /api/builds`: entry `i` is paired with
uploaded file `i` (`modFiles[i]`, or NULL past the end), again without a
transaction. -/
def insertModsNoTx (sched : ℕ → ExecOutcome) (bid : ℕ) (modFiles : List String) :
    ℕ → ℕ → List CreateMod → BuildDb → BuildDb × Bool
  | _, _, [], st => (st, true)
  | idx, i, m :: rest, st =>
    match sched idx with
    | .fail => (st, false)
    | _ =>
      let imageUrl := (modFiles.get? i).map fun f => "/uploads/" ++ f
      insertModsNoTx sched bid modFiles (idx + 1) (i + 1) rest
        { st with mods := st.mods ++ [⟨bid, m.main, orNull m.sub, m.name, imageUrl, orNull m.details⟩] }

/-- `POST /api/builds`: parent insert (statement 0), then the gallery and
mod child inserts, all through the shared pool with no transaction; any
failure is answered with 500 but leaves the earlier inserts persisted.
MySQL always reports an id for the auto-increment `builds` table, so a
successful parent insert yields `nextBuildId` (the handler never checks
it). -/
def createBuild (sched : ℕ → ExecOutcome) (st : BuildDb) (req : CreateBuildRequest) :
    BuildDb × ℕ :=
  let coverImage := (req.coverFiles.get? 0).map fun f => "/uploads/" ++ f
  let coverImage2 := (req.coverFiles.get? 1).map fun f => "/uploads/" ++ f
  match sched 0 with
  | .fail => (st, 500)
  | _ =>
    let bid := st.nextBuildId
    let st1 : BuildDb :=
      { st with
        builds := st.builds ++
          [⟨bid, req.userId, req.ownership, req.car_name, req.model,
            req.description, req.bodyStyle, coverImage, coverImage2⟩],
        nextBuildId := st.nextBuildId + 1 }
    let galleryUrls := req.galleryFiles.map fun f => "/uploads/" ++ f
    match insertGalleryNoTx sched bid 1 galleryUrls st1 with
    | (st2, false) => (st2, 500)
    | (st2, true) =>
      match insertModsNoTx sched bid req.modFiles (1 + galleryUrls.length) 0 req.mods st2 with
      | (st3, false) => (st3, 500)
      | (st3, true) => (st3, 201)

/-- The empty build store. -/
def emptyBuildDb : BuildDb := ⟨[], [], [], 1⟩

/-- A schedule under which the parent insert succeeds and every later
statement fails. -/
def schedFailChildren : ℕ → ExecOutcome := fun n => if n == 0 then .ok else .fail

/-- A build-creation request carrying one gallery image. -/
def cbReq : CreateBuildRequest :=
  ⟨7, "current", "Skyline", "R34", none, none, [], [], ["g1.png"], []⟩

/-- C1 counterexample: creating a Build with one gallery image under a
forced child-insert failure persists the parent `builds` row while the
requested `build_gallery` child is missing — a partial child set, because
`POST /api/builds` runs outside any transaction.  This refutes the
claimed all-or-nothing behaviour for Build creation. -/
theorem createBuild_partial_persistence :
    (createBuild schedFailChildren emptyBuildDb cbReq).2 = 500 ∧
    (createBuild schedFailChildren emptyBuildDb cbReq).1.builds =
      [⟨1, 7, "current", "Skyline", "R34", none, none, none, none⟩] ∧
    (createBuild schedFailChildren emptyBuildDb cbReq).1.gallery = [] := by
  refine ⟨rfl, rfl, rfl⟩

/-- One entry of the parsed `mods` JSON of `PUT /api/builds/:id`, after
the handler's `?? ''` defaulting of the text fields.  `hasImage` is the
flag pairing the entry with the next uploaded file; `image_url` is the
caller-supplied existing reference (the unused `deleteImage` field is
dropped). -/
structure UpdMod where
  main : String
  sub : String
  name : String
  details : String
  hasImage : Bool
  image_url : Option String
deriving Repr, DecidableEq

/-- The parsed `PUT /api/builds/:id` request: `userId` is the principal
id attached by `ensureAuthenticated`, the keep-lists and `mods` come from
the JSON body, the file lists from multer in transmission order. -/
structure UpdateBuildRequest where
  buildId : ℕ
  userId : ℕ
  ownership : String
  car_name : String
  model : String
  bodyStyle : Option String
  description : String
  keepCovers : List String
  keepGallery : List String
  mods : List UpdMod
  coverFiles : List String
  galleryFiles : List String
  modFiles : List String
deriving Repr, DecidableEq

/-- The mod-image pairing loop of `PUT /api/builds/:id`: a flagged entry
takes `newModFiles[imgIdx]` when it exists (then advances `imgIdx`), an
unflagged entry falls back to its truthy `image_url`, everything else is
NULL. -/
def assignModImages (files : List String) : List UpdMod → ℕ → List (UpdMod × Option String)
  | [], _ => []
  | m :: rest, imgIdx =>
    if m.hasImage then
      match files.get? imgIdx with
      | some f => (m, some ("/uploads/" ++ f)) :: assignModImages files rest (imgIdx + 1)
      | none => (m, none) :: assignModImages files rest imgIdx
    else
      (m, orNull m.image_url) :: assignModImages files rest imgIdx

/-- The parameter list of the gallery `DELETE … NOT IN (?)`: the caller's
retain list, or the literal `['__NONE__']` when it is empty. -/
def effectiveKeep (keepGallery : List String) : List String :=
  if keepGallery.isEmpty then ["__NONE__"] else keepGallery

/-- The `build_mods` row inserted for one paired mod entry of
`PUT /api/builds/:id`. -/
def updModRow (bid : ℕ) (p : UpdMod × Option String) : ModRow :=
  ⟨bid, p.1.main, some p.1.sub, p.1.name, p.2, some p.1.details⟩

/-- The store state written by the success path of `PUT /api/builds/:id`
(after the ownership check passed): scalar update, cover recomputation
(kept references first, then new uploads, first two slots persisted with
`|| null`), gallery reconciliation against `effectiveKeep`, and full
delete-and-reinsert of the mods. -/
def updateBuildApplied (st : BuildDb) (req : UpdateBuildRequest) : BuildDb :=
  let builds1 := st.builds.map fun b =>
    if b.id == req.buildId then
      { b with
        ownership_status := req.ownership, car_name := req.car_name,
        model := req.model, body_style := req.bodyStyle,
        description := some req.description }
    else b
  let allCovers := req.keepCovers ++ req.coverFiles.map fun f => "/uploads/" ++ f
  let cover1 := orNull (allCovers.get? 0)
  let cover2 := orNull (allCovers.get? 1)
  let builds2 := builds1.map fun b =>
    if b.id == req.buildId then { b with cover_image := cover1, cover_image2 := cover2 } else b
  let keep := effectiveKeep req.keepGallery
  let gallery1 := st.gallery.filter fun g => g.build_id != req.buildId || keep.contains g.image_url
  let gallery2 := gallery1 ++ req.galleryFiles.map fun f => GalleryRow.mk req.buildId ("/uploads/" ++ f)
  let mods1 := st.mods.filter fun r => r.build_id != req.buildId
  let newMods := (assignModImages req.modFiles req.mods 0).map (updModRow req.buildId)
  ⟨builds2, gallery2, mods1 ++ newMods, st.nextBuildId⟩

/-- `PUT /api/builds/:id`: inside a transaction, re-read the row's
`user_id` under `FOR UPDATE`; a missing row and a mismatching owner both
throw `NOT_OWNER`, which rolls back and answers 403; otherwise the
reconciliation runs and commits with 200. -/
def updateBuild (st : BuildDb) (req : UpdateBuildRequest) : BuildDb × ℕ :=
  match (st.builds.filter fun b => b.id == req.buildId).head? with
  | none => (st, 403)
  | some row =>
    if row.user_id != req.userId then (st, 403)
    else (updateBuildApplied st req, 200)

/-- An update request for build 5 by user 7 with empty child lists. -/
def ubReqMissing : UpdateBuildRequest :=
  ⟨5, 7, "current", "A", "B", none, "", [], [], [], [], [], []⟩

/-- C3 counterexample: updating a build id that does not exist answers
HTTP 403 (the `NOT_OWNER` branch), not the 404 NotFound the claim
requires; the store is untouched. -/
theorem updateBuild_missing_build_is_403 :
    updateBuild emptyBuildDb ubReqMissing = (emptyBuildDb, 403) ∧ (403 : ℕ) ≠ 404 :=
  ⟨rfl, by decide⟩

/-- C3 (amended): when the build row is absent, or present with an owner
other than the caller, `PUT /api/builds/:id` answers 403 in both cases
and aborts before mutating any row. -/
theorem updateBuild_missing_or_foreign_aborts (st : BuildDb) (req : UpdateBuildRequest)
    (h : ((st.builds.filter fun b => b.id == req.buildId).head?).all
        (fun row => row.user_id != req.userId) = true) :
    updateBuild st req = (st, 403) := by
  unfold updateBuild
  cases hh : (st.builds.filter fun b => b.id == req.buildId).head? with
  | none => rfl
  | some row =>
    rw [hh] at h
    simp only [Option.all_some] at h
    simp [h]

/-- A store holding build 1 owned by user 9. -/
def dbOwned9 : BuildDb :=
  ⟨[⟨1, 9, "current", "A", "B", none, none, none, none⟩], [], [], 2⟩

/-- An update request for build 1 by user 7, who is not its owner. -/
def ubReqForeign : UpdateBuildRequest :=
  ⟨1, 7, "current", "A", "B", none, "", [], [], [], [], [], []⟩

theorem updateBuild_missing_or_foreign_aborts_w :
    updateBuild dbOwned9 ubReqForeign = (dbOwned9, 403) :=
  updateBuild_missing_or_foreign_aborts _ _ (by decide)

/-- A `PUT /api/builds/:id` that returns 200 passed the ownership check
and applied the reconciliation. -/
theorem updateBuild_success (st : BuildDb) (req : UpdateBuildRequest)
    (h : (updateBuild st req).2 = 200) :
    updateBuild st req = (updateBuildApplied st req, 200) := by
  unfold updateBuild at h ⊢
  split at h
  · simp at h
  · next row hrow =>
    split at h
    · simp at h
    · next ho =>
      rw [if_neg ho]

/-- The pairing loop emits exactly one output per mod entry. -/
theorem assignModImages_length (files : List String) :
    ∀ (mods : List UpdMod) (imgIdx : ℕ),
      (assignModImages files mods imgIdx).length = mods.length := by
  intro mods
  induction mods with
  | nil => intro imgIdx; rfl
  | cons m rest ih =>
    intro imgIdx
    unfold assignModImages
    by_cases hm : m.hasImage
    · simp only [hm, if_true]
      cases files.get? imgIdx <;> simp [ih]
    · simp [hm, ih]

/-- Every row the mod reinsert writes belongs to the updated build. -/
theorem filter_updModRow (bid : ℕ) (ps : List (UpdMod × Option String)) :
    (ps.map (updModRow bid)).filter (fun r => r.build_id == bid) = ps.map (updModRow bid) := by
  apply List.filter_eq_self.mpr
  intro r hr
  obtain ⟨p, _, hp⟩ := List.mem_map.mp hr
  rw [← hp]
  simp [updModRow]

/-- After a successful update, the `build_mods` rows of the updated build
are exactly the reinserted list. -/
theorem updateBuildApplied_mods (st : BuildDb) (req : UpdateBuildRequest) :
    (updateBuildApplied st req).mods.filter (fun r => r.build_id == req.buildId) =
      (assignModImages req.modFiles req.mods 0).map (updModRow req.buildId) := by
  unfold updateBuildApplied
  simp only [List.filter_append]
  rw [filter_updModRow]
  have hnil : (st.mods.filter fun r => r.build_id != req.buildId).filter
      (fun r => r.build_id == req.buildId) = [] := by
    rw [List.filter_filter]
    apply List.filter_eq_nil_iff.mpr
    intro r _
    cases hb : r.build_id == req.buildId <;> simp [bne, hb]
  rw [hnil, List.nil_append]

/-- C4: a successful `PUT /api/builds/:id` carrying `M` mod entries
leaves the build with exactly `M` `build_mods` rows, whatever was stored
before (unconditional delete, then full reinsert). -/
theorem updateBuild_mod_count (st : BuildDb) (req : UpdateBuildRequest)
    (h : (updateBuild st req).2 = 200) :
    ((updateBuild st req).1.mods.filter fun r => r.build_id == req.buildId).length =
      req.mods.length := by
  have hs := updateBuild_success st req h
  rw [hs]
  simp only
  rw [updateBuildApplied_mods, List.length_map, assignModImages_length]

/-- A store holding build 1 owned by user 7, with two stale mod rows and
three gallery rows. -/
def dbOwned7 : BuildDb :=
  ⟨[⟨1, 7, "current", "A", "B", none, none, none, none⟩],
    [⟨1, "/uploads/a.png"⟩, ⟨1, "/uploads/b.png"⟩, ⟨1, "/uploads/c.png"⟩],
    [⟨1, "Engine", some "Turbo", "kit", none, none⟩, ⟨1, "Wheels", none, "rims", none, none⟩],
    2⟩

/-- An update of build 1 by its owner: one mod entry, retain `b.png`,
upload `new1.png`. -/
def ubReqOwner : UpdateBuildRequest :=
  ⟨1, 7, "previous", "A2", "B2", none, "desc", [], ["/uploads/b.png"],
    [⟨"Engine", "", "manifold", "", false, none⟩], [], ["new1.png"], []⟩

theorem updateBuild_mod_count_w :
    ((updateBuild dbOwned7 ubReqOwner).1.mods.filter
        fun r => r.build_id == ubReqOwner.buildId).length = ubReqOwner.mods.length :=
  updateBuild_mod_count _ _ (by decide)

/-- A store holding build 1 owned by user 7 whose gallery contains a row
whose reference is the literal string `__NONE__`. -/
def dbSentinel : BuildDb :=
  ⟨[⟨1, 7, "current", "A", "B", none, none, none, none⟩], [⟨1, "__NONE__"⟩], [], 2⟩

/-- An owner update of build 1 with an empty gallery retain set and no
uploads. -/
def ubReqEmptyKeep : UpdateBuildRequest :=
  ⟨1, 7, "current", "A", "B", none, "", [], [], [], [], [], []⟩

/-- C5 counterexample: with an empty retain set the handler substitutes
the literal list `['__NONE__']` into `image_url NOT IN (?)`, so an
existing gallery row whose reference is exactly `__NONE__` survives an
update that, per the claim, should have deleted every existing row; the
update still reports success. -/
theorem updateBuild_sentinel_row_survives :
    (updateBuild dbSentinel ubReqEmptyKeep).2 = 200 ∧
    (updateBuild dbSentinel ubReqEmptyKeep).1.gallery = [⟨1, "__NONE__"⟩] :=
  ⟨rfl, rfl⟩

/-- Every gallery row inserted for a newly uploaded file belongs to the
updated build. -/
theorem filter_newGalleryRows (bid : ℕ) (files : List String) :
    ((files.map fun f => GalleryRow.mk bid ("/uploads/" ++ f)).filter
        fun g => g.build_id == bid) =
      files.map fun f => GalleryRow.mk bid ("/uploads/" ++ f) := by
  apply List.filter_eq_self.mpr
  intro g hg
  obtain ⟨f, _, hf⟩ := List.mem_map.mp hg
  rw [← hf]
  simp

/-- C5 (amended): after a successful update, the gallery rows of the
build are exactly the previously existing rows whose reference lies in
the *effective* retain set — the caller's retain set, or the singleton
`['__NONE__']` substituted when it is empty — followed by one row per
newly uploaded file.  (With a nonempty retain set, or an empty one and no
stored `__NONE__` reference, this is the behaviour the claim states.) -/
theorem updateBuild_gallery_reconciliation (st : BuildDb) (req : UpdateBuildRequest)
    (h : (updateBuild st req).2 = 200) :
    (updateBuild st req).1.gallery.filter (fun g => g.build_id == req.buildId) =
      st.gallery.filter
        (fun g => g.build_id == req.buildId &&
          (effectiveKeep req.keepGallery).contains g.image_url) ++
      req.galleryFiles.map (fun f => GalleryRow.mk req.buildId ("/uploads/" ++ f)) := by
  rw [updateBuild_success st req h]
  show (updateBuildApplied st req).gallery.filter _ = _
  unfold updateBuildApplied
  simp only [List.filter_append]
  rw [filter_newGalleryRows, List.filter_filter]
  congr 1
  apply List.filter_congr
  intro g _
  cases hb : g.build_id == req.buildId <;> simp [bne, hb]

theorem updateBuild_gallery_reconciliation_w :
    (updateBuild dbOwned7 ubReqOwner).1.gallery.filter
        (fun g => g.build_id == ubReqOwner.buildId) =
      dbOwned7.gallery.filter
        (fun g => g.build_id == ubReqOwner.buildId &&
          (effectiveKeep ubReqOwner.keepGallery).contains g.image_url) ++
      ubReqOwner.galleryFiles.map
        (fun f => GalleryRow.mk ubReqOwner.buildId ("/uploads/" ++ f)) :=
  updateBuild_gallery_reconciliation _ _ (by decide)

/-- The image assignment the specification describes, written from its
words: walking the mod list in order while counting flagged entries, a
flagged entry receives the next unconsumed uploaded file (position `k` in
transmission order, NULL once the files run out — no error), an unflagged
entry reuses its caller-supplied reference when that is a nonempty
(truthy) string and NULL otherwise. -/
def pairModImagesSpec (files : List String) : List UpdMod → ℕ → List (Option String)
  | [], _ => []
  | m :: rest, k =>
    if m.hasImage then
      ((files.get? k).map fun f => "/uploads/" ++ f) :: pairModImagesSpec files rest (k + 1)
    else
      orNull m.image_url :: pairModImagesSpec files rest k

/-- The handler's pairing loop agrees with the specification's pairing:
the loop's cursor equals the flagged-entry count clamped at the number of
uploaded files, and past the end both sides produce NULL. -/
theorem assignModImages_spec (files : List String) :
    ∀ (mods : List UpdMod) (k : ℕ),
      (assignModImages files mods (min k files.length)).map Prod.snd =
        pairModImagesSpec files mods k := by
  intro mods
  induction mods with
  | nil => intro k; rfl
  | cons m rest ih =>
    intro k
    unfold assignModImages pairModImagesSpec
    by_cases hm : m.hasImage
    · simp only [hm, if_true]
      by_cases hk : k < files.length
      · have ih2 := ih (k + 1)
        rw [min_eq_left (Nat.succ_le_of_lt hk)] at ih2
        rw [min_eq_left (Nat.le_of_lt hk), List.get?_eq_get hk]
        simp [ih2]
      · have hk2 : files.length ≤ k := Nat.le_of_not_lt hk
        have ih2 := ih (k + 1)
        rw [min_eq_right (Nat.le_succ_of_le hk2)] at ih2
        rw [min_eq_right hk2]
        have hnone : files.get? files.length = none := List.get?_eq_none.mpr (le_refl _)
        have hknone : files.get? k = none := List.get?_eq_none.mpr hk2
        rw [hnone, hknone]
        simp [ih2]
    · have hm2 : m.hasImage = false := eq_false_of_ne_true hm
      simp [hm2, ih k]

/-- C6: after a successful `PUT /api/builds/:id`, the image references of
the reinserted mod rows, in order, are exactly those of the spec-side
pairing `pairModImagesSpec`: the `k`-th flagged entry gets uploaded file
`k` in transmission order (NULL once the files are exhausted, without an
error — the update still returns 200), an unflagged entry reuses its
truthy caller-supplied reference and is NULL otherwise. -/
theorem updateBuild_mod_image_pairing (st : BuildDb) (req : UpdateBuildRequest)
    (h : (updateBuild st req).2 = 200) :
    ((updateBuild st req).1.mods.filter fun r => r.build_id == req.buildId).map
        (fun r => r.image_url) =
      pairModImagesSpec req.modFiles req.mods 0 := by
  have hs := updateBuild_success st req h
  rw [hs]
  show ((updateBuildApplied st req).mods.filter _).map _ = _
  rw [updateBuildApplied_mods, List.map_map]
  have : ((fun r => r.image_url) ∘ updModRow req.buildId) = Prod.snd := by
    funext p; rfl
  rw [this]
  have h0 := assignModImages_spec req.modFiles req.mods 0
  rw [Nat.zero_min] at h0
  exact h0

/-- An owner update of build 1 with two flagged mod entries but only one
uploaded mod image, plus an unflagged entry reusing a stored
reference. -/
def ubReqPairing : UpdateBuildRequest :=
  ⟨1, 7, "current", "A", "B", none, "", [], [], 
    [⟨"Engine", "", "turbo", "", true, none⟩,
     ⟨"Wheels", "", "rims", "", true, none⟩,
     ⟨"Brakes", "", "pads", "", false, some "/uploads/old.png"⟩],
    [], [], ["m1.png"]⟩

theorem updateBuild_mod_image_pairing_w :
    ((updateBuild dbOwned7 ubReqPairing).1.mods.filter
        fun r => r.build_id == ubReqPairing.buildId).map (fun r => r.image_url) =
      pairModImagesSpec ubReqPairing.modFiles ubReqPairing.mods 0 :=
  updateBuild_mod_image_pairing _ _ (by decide)

/-! ## Business reviews (`POST /api/businesses/:businessId/reviews`,
`PUT /api/reviews/:reviewId`)

Neither route is mounted behind `authenticateToken`: the handlers never
read a session principal and take `userId` from the request body.  Both
validate `!userId || !rating` and `rating < 1 || rating > 5` with
JavaScript loose comparisons; creation pre-checks the one-review-per
(business, user) invariant, update compares the stored row's `user_id`
with the body-supplied `userId`.  The unused `principal` argument below
is the session identity an authenticated route would have had. -/

/-- A row of `business_reviews`.  `user_id = 0` is the falsy id; the
`rating` column stores whatever value the driver bound (the store is
modelled as accepting the parameter, which is what a non-strict MySQL
does). -/
structure ReviewRow where
  id : ℕ
  business_id : ℕ
  user_id : ℤ
  rating : JsVal
  comment : Option String
deriving Repr, DecidableEq

/-- The `business_reviews` table plus its auto-increment counter. -/
structure ReviewDb where
  reviews : List ReviewRow
  nextId : ℕ
deriving Repr, DecidableEq

/-- `POST /api/businesses/:businessId/reviews`.  The `_principal`
argument (the authenticated session identity, `none` when the caller has
no session at all) is ignored by the handler: the route has no
authentication middleware and every check uses the body-supplied
`userId`. -/
def postReview (_principal : Option ℤ) (businessId : ℕ) (userId : ℤ) (rating : JsVal)
    (comment : Option String) (db : ReviewDb) : ReviewDb × ℕ :=
  if userId == 0 || !rating.truthy then (db, 400)
  else if jsLt rating (JsVal.num 1) || jsGt rating (JsVal.num 5) then (db, 400)
  else if db.reviews.any (fun r => r.business_id == businessId && r.user_id == userId) then
    (db, 409)
  else
    ({ reviews := db.reviews ++ [⟨db.nextId, businessId, userId, rating, orNull comment⟩],
       nextId := db.nextId + 1 }, 201)

/-- `PUT /api/reviews/:reviewId`; like `postReview`, the session identity
`_principal` is never consulted — ownership is checked against the
body-supplied `userId` only. -/
def putReview (_principal : Option ℤ) (reviewId : ℕ) (userId : ℤ) (rating : JsVal)
    (comment : Option String) (db : ReviewDb) : ReviewDb × ℕ :=
  if userId == 0 || !rating.truthy then (db, 400)
  else if jsLt rating (JsVal.num 1) || jsGt rating (JsVal.num 5) then (db, 400)
  else
    match (db.reviews.filter fun r => r.id == reviewId).head? with
    | none => (db, 404)
    | some row =>
      if row.user_id != userId then (db, 403)
      else
        ({ db with
            reviews := db.reviews.map fun r =>
              if r.id == reviewId then { r with rating := rating, comment := orNull comment }
              else r }, 200)

/-- A store holding review 1 of business 1 written by user 7. -/
def reviewDb1 : ReviewDb := ⟨[⟨1, 1, 7, JsVal.num 4, none⟩], 2⟩

/-- C2 counterexample: a `PUT /api/reviews/1` request whose session
principal is user 99 — not user 7, the row's owner — succeeds and
mutates the row, because the handler compares the row's owner against
the caller-supplied body `userId` (7) and never looks at the session.
The same call with no session at all (`none`) behaves identically. -/
theorem putReview_foreign_principal_mutates :
    (putReview (some 99) 1 7 (JsVal.num 5) none reviewDb1).2 = 200 ∧
    (putReview (some 99) 1 7 (JsVal.num 5) none reviewDb1).1.reviews =
      [⟨1, 1, 7, JsVal.num 5, none⟩] ∧
    putReview none 1 7 (JsVal.num 5) none reviewDb1 =
      putReview (some 99) 1 7 (JsVal.num 5) none reviewDb1 ∧
    (99 : ℤ) ≠ 7 := by
  refine ⟨rfl, rfl, rfl, by decide⟩

/-- C2 (amended): the review mutation routes are not session-guarded —
their behaviour is identical for every session principal (including no
session) — and the only ownership comparison is the update's check of
the stored row's owner against the body-supplied `userId`: a 200 update
implies the row named in the URL is owned by the body `userId`. -/
theorem review_ownership_is_body_supplied (p q : Option ℤ) (businessId reviewId : ℕ)
    (userId : ℤ) (rating : JsVal) (comment : Option String) (db : ReviewDb) :
    postReview p businessId userId rating comment db =
      postReview q businessId userId rating comment db ∧
    putReview p reviewId userId rating comment db =
      putReview q reviewId userId rating comment db ∧
    ((putReview p reviewId userId rating comment db).2 = 200 →
      ∃ r ∈ db.reviews, r.id = reviewId ∧ r.user_id = userId) := by
  refine ⟨rfl, rfl, ?_⟩
  intro h
  unfold putReview at h
  split at h
  · simp at h
  split at h
  · simp at h
  split at h
  · simp at h
  · next row hrow =>
    split at h
    · simp at h
    · next ho =>
      have hmem := List.mem_of_mem_head? hrow
      obtain ⟨hin, hpred⟩ := List.mem_filter.mp hmem
      refine ⟨row, hin, by simpa using hpred, by simpa using ho⟩

theorem review_ownership_is_body_supplied_w :
    postReview (some 1) 1 7 (JsVal.num 5) none reviewDb1 =
      postReview none 1 7 (JsVal.num 5) none reviewDb1 ∧
    putReview (some 1) 1 7 (JsVal.num 5) none reviewDb1 =
      putReview none 1 7 (JsVal.num 5) none reviewDb1 ∧
    ∃ r ∈ reviewDb1.reviews, r.id = 1 ∧ r.user_id = 7 :=
  ⟨(review_ownership_is_body_supplied (some 1) none 1 1 7 (JsVal.num 5) none reviewDb1).1,
   (review_ownership_is_body_supplied (some 1) none 1 1 7 (JsVal.num 5) none reviewDb1).2.1,
   (review_ownership_is_body_supplied (some 1) none 1 1 7 (JsVal.num 5) none reviewDb1).2.2
     (by decide)⟩

/-- The empty review store. -/
def emptyReviewDb : ReviewDb := ⟨[], 1⟩

/-- C7 counterexample: the non-numeric rating `"abc"` is truthy, and both
`"abc" < 1` and `"abc" > 5` are false in JavaScript (NaN comparisons), so
the validation does not reject it: review creation proceeds past both
checks and inserts a row instead of returning a 400 validation error. -/
theorem postReview_nonnumeric_rating_accepted :
    (postReview (some 1) 1 7 (JsVal.str "abc") none emptyReviewDb).2 = 201 ∧
    (postReview (some 1) 1 7 (JsVal.str "abc") none emptyReviewDb).1.reviews =
      [⟨1, 1, 7, JsVal.str "abc", none⟩] := by
  exact ⟨by decide, by decide⟩

/-- C7 (amended): a rating that is a JavaScript *number* outside [1, 5]
is rejected with a 400 validation error by both review creation and
review update, leaving the store unchanged (non-numeric truthy ratings
such as the string `"abc"` are not caught by these checks). -/
theorem review_rating_bounds (p : Option ℤ) (businessId reviewId : ℕ) (userId : ℤ)
    (q : ℚ) (comment : Option String) (db : ReviewDb) (h : q < 1 ∨ 5 < q) :
    postReview p businessId userId (JsVal.num q) comment db = (db, 400) ∧
    putReview p reviewId userId (JsVal.num q) comment db = (db, 400) := by
  have hlt : (jsLt (JsVal.num q) (JsVal.num 1) || jsGt (JsVal.num q) (JsVal.num 5)) = true := by
    rcases h with h | h
    · have hq : jsLt (JsVal.num q) (JsVal.num 1) = true := decide_eq_true h
      simp [hq]
    · have hq : jsGt (JsVal.num q) (JsVal.num 5) = true := decide_eq_true h
      simp [hq]
  constructor
  · simp [postReview, hlt]
  · simp [putReview, hlt]

theorem review_rating_bounds_w :
    postReview (some 1) 1 7 (JsVal.num 6) none reviewDb1 = (reviewDb1, 400) ∧
    putReview (some 1) 1 7 (JsVal.num 6) none reviewDb1 = (reviewDb1, 400) :=
  review_rating_bounds (some 1) 1 1 7 6 none reviewDb1 (Or.inr (by norm_num))

/-! ## Follow graph (`routes/follows.js`)

`POST /api/follows` takes the follower from the authenticated session and
the followed id from the body; it rejects a falsy `followedId` (400), a
self-follow (400), and translates the `ER_DUP_ENTRY` raised by the unique
(follower, followed) key into a 409 conflict.  `DELETE
/api/follows/:followedId` deletes the edge and answers 404 when zero rows
were affected. -/

/-- The `follows` table: a list of (follower_id, followed_id) edges with
a uniqueness constraint on the ordered pair. -/
structure FollowsDb where
  edges : List (ℤ × ℤ)
deriving Repr, DecidableEq

/-- `POST /api/follows`; `followedId = 0` models the falsy body value
caught by the `!followedId` guard, and a duplicate edge models the
unique-key violation translated to 409. -/
def followUser (db : FollowsDb) (followerId followedId : ℤ) : FollowsDb × ℕ :=
  if followedId == 0 then (db, 400)
  else if followerId == followedId then (db, 400)
  else if db.edges.contains (followerId, followedId) then (db, 409)
  else (⟨db.edges ++ [(followerId, followedId)]⟩, 201)

/-- `DELETE /api/follows/:followedId`: the DELETE removes every matching
edge, then `affectedRows == 0` is answered with 404. -/
def unfollowUser (db : FollowsDb) (followerId followedId : ℤ) : FollowsDb × ℕ :=
  let remaining := db.edges.filter fun e => !(e == (followerId, followedId))
  let affected := db.edges.length - remaining.length
  if affected == 0 then (⟨remaining⟩, 404) else (⟨remaining⟩, 200)

/-- C9: (a) a self-follow is always rejected with 400 and the edge set is
unchanged; (b) a follow of an already-present edge is rejected with the
409 conflict and the edge set is unchanged (the side conditions hold for
every edge the API can create, by (d)); (c) an unfollow that matches no
edge answers 404 with the edge set unchanged; (d) any call that changes
the edge set inserted a non-self edge with a truthy followed id. -/
theorem follows_failure_invariants (db : FollowsDb) (followerId followedId : ℤ) :
    (followerId = followedId →
      followUser db followerId followedId = (db, 400)) ∧
    (followedId ≠ 0 → followerId ≠ followedId →
      db.edges.contains (followerId, followedId) = true →
      followUser db followerId followedId = (db, 409)) ∧
    (db.edges.contains (followerId, followedId) = false →
      unfollowUser db followerId followedId = (db, 404)) ∧
    ((followUser db followerId followedId).1.edges ≠ db.edges →
      followedId ≠ 0 ∧ followerId ≠ followedId) := by
  refine ⟨?_, ?_, ?_, ?_⟩
  · intro h
    unfold followUser
    by_cases h0 : (followedId == 0) = true
    · rw [if_pos h0]
    · rw [if_neg h0, if_pos (by simp [h])]
  · intro h0 hne hdup
    unfold followUser
    rw [if_neg (by simp [h0]), if_neg (by simp [hne]), if_pos hdup]
  · intro habs
    unfold unfollowUser
    have hkeep : (db.edges.filter fun e => !(e == (followerId, followedId))) = db.edges := by
      apply List.filter_eq_self.mpr
      intro e he
      have : e ≠ (followerId, followedId) := by
        intro hcontr
        rw [hcontr] at he
        exact absurd (List.elem_iff.mpr he) (by simp [List.contains] at habs ⊢; exact habs)
      simp [this]
    rw [hkeep]
    simp
  · intro hch
    unfold followUser at hch
    by_cases h0 : (followedId == 0) = true
    · rw [if_pos h0] at hch; exact absurd rfl hch
    · by_cases hs : (followerId == followedId) = true
      · rw [if_neg h0, if_pos hs] at hch; exact absurd rfl hch
      · refine ⟨by simpa using h0, by simpa using hs⟩

/-- The empty follow graph. -/
def emptyFollows : FollowsDb := ⟨[]⟩

/-- A follow graph holding the single edge (5, 6). -/
def followsDb56 : FollowsDb := ⟨[(5, 6)]⟩

theorem follows_failure_invariants_w :
    followUser emptyFollows 5 5 = (emptyFollows, 400) ∧
    followUser followsDb56 5 6 = (followsDb56, 409) ∧
    unfollowUser emptyFollows 5 6 = (emptyFollows, 404) :=
  ⟨(follows_failure_invariants emptyFollows 5 5).1 rfl,
   (follows_failure_invariants followsDb56 5 6).2.1 (by decide) (by decide) (by decide),
   (follows_failure_invariants emptyFollows 5 6).2.2.1 (by decide)⟩

/-! ## Profile update (`PUT /api/profile/:userId`)

The handler rejects callers other than the authenticated user (403),
decodes an inline `data:image` avatar (writing it to a fresh upload path;
an unparsable data URI yields NULL), maps the empty string to NULL, then
assembles the UPDATE: `display_name` and `bio` are added to the SET
clause only when defined, while `avatar_url = ?` is pushed
unconditionally.  When the request omits `avatar_url` the value bound for
that parameter is `undefined`, which the mysql2 driver rejects ("Bind
parameters must not contain undefined"), so the UPDATE throws before
reaching the store and the handler answers 500. -/

/-- A request-body field as the handler sees it: absent (`undefined`),
JSON `null`, or a string. -/
inductive ReqField where
  | undefV
  | nullV
  | str (s : String)
deriving Repr, DecidableEq

/-- Split a character list at the *last* occurrence of `sep`, mirroring
the backtracking of the greedy `(.+)` in the avatar regex. -/
def splitLastSep (sep : List Char) : List Char → Option (List Char × List Char)
  | [] => none
  | c :: rest =>
    match splitLastSep sep (c :: rest).tail with
    | some (b, a) => some (c :: b, a)
    | none =>
      if sep.isPrefixOf (c :: rest) then some ([], (c :: rest).drop sep.length) else none

/-- The avatar regex `^data:(image\/(.+));base64,(.*)$`: on a match,
returns the extension (group 2, nonempty) and the base64 payload
(group 3). -/
def dataImageParts (s : String) : Option (String × String) :=
  match splitLastSep ";base64,".data s.data with
  | none => none
  | some (before, after) =>
    if "data:image/".data.isPrefixOf before && "data:image/".data.length < before.length then
      some (⟨before.drop "data:image/".data.length⟩, ⟨after⟩)
    else none

/-- The URL stored for a freshly written avatar file
(`avatar-<userId>-<Date.now()>.<extension>` under the profile-pics
directory); the timestamp is a model parameter. -/
def avatarFresh (userId : ℤ) (stamp : ℕ) (ext : String) : String :=
  "/uploads/avatars/profilepics/avatar-" ++ toString userId ++ "-" ++ toString stamp ++ "." ++ ext

/-- The value the handler binds for the `avatar_url = ?` parameter:
a truthy string starting with `data:image` is decoded (NULL when the
regex fails), the empty string becomes NULL, everything else — including
`undefined` when the field was omitted — passes through unchanged. -/
def finalAvatarValue (avatar : ReqField) (userId : ℤ) (stamp : ℕ) : ReqField :=
  match avatar with
  | .str s =>
    if s != "" && "data:image".data.isPrefixOf s.data then
      match dataImageParts s with
      | some (ext, _) => .str (avatarFresh userId stamp ext)
      | none => .nullV
    else if s = "" then .nullV
    else .str s
  | .nullV => .nullV
  | .undefV => .undefV

/-- A defined field, as bound into the SQL parameter list. -/
def toColumn : ReqField → Option String
  | .undefV => none
  | .nullV => none
  | .str s => some s

/-- A row of `users` (the profile-relevant columns). -/
structure UserRow where
  id : ℤ
  username : String
  display_name : Option String
  bio : Option String
  avatar_url : Option String
deriving Repr, DecidableEq

/-- `PUT /api/profile/:userId`: self-check, avatar preprocessing,
SET-clause assembly (`display_name`/`bio` only when defined,
`avatar_url` always), then the UPDATE — which the driver refuses with an
error (500, nothing written) when the bound avatar value is still
`undefined`. -/
def updateProfile (sessionUserId userId : ℤ) (name bio avatar : ReqField)
    (stamp : ℕ) (db : List UserRow) : List UserRow × ℕ :=
  if sessionUserId != userId then (db, 403)
  else
    let finalAvatar := finalAvatarValue avatar userId stamp
    if finalAvatar == ReqField.undefV then (db, 500)
    else
      (db.map fun u =>
        if u.id == userId then
          { u with
            display_name := if name != ReqField.undefV then toColumn name else u.display_name,
            bio := if bio != ReqField.undefV then toColumn bio else u.bio,
            avatar_url := toColumn finalAvatar }
        else u, 200)

/-- The avatar parameter is still `undefined` exactly when the request
omitted the field. -/
theorem finalAvatarValue_undefined (avatar : ReqField) (userId : ℤ) (stamp : ℕ) :
    finalAvatarValue avatar userId stamp = ReqField.undefV ↔ avatar = ReqField.undefV := by
  cases avatar with
  | undefV => simp [finalAvatarValue]
  | nullV => simp [finalAvatarValue]
  | str s =>
    simp only [finalAvatarValue]
    constructor
    · intro h
      split at h
      · split at h <;> simp at h
      · split at h <;> simp at h
    · intro h
      simp at h

/-- A store holding user 1 with a previously uploaded avatar. -/
def profileDb1 : List UserRow :=
  [⟨1, "ade", some "Ade", none, some "/uploads/avatars/profilepics/old.png"⟩]

/-- The stored row of user 1. -/
def profileU1 : UserRow :=
  ⟨1, "ade", some "Ade", none, some "/uploads/avatars/profilepics/old.png"⟩

/-- C10 counterexample: a self-request that supplies a new display name
but omits `avatar_url` does *not* overwrite the stored avatar: the
`undefined` bind parameter makes the UPDATE throw, the handler answers
500, and the whole row — avatar included — is left unchanged, contrary
to the claimed unconditional overwrite (and the name is not updated
either). -/
theorem updateProfile_omitted_avatar_unchanged :
    updateProfile 1 1 (ReqField.str "NewName") ReqField.undefV ReqField.undefV 0 profileDb1 =
      (profileDb1, 500) ∧
    profileDb1.map (fun u => u.avatar_url) = [some "/uploads/avatars/profilepics/old.png"] := by
  exact ⟨by decide, by decide⟩

/-- C10 (amended): the SET clause always carries `avatar_url`, so for
every *defined* request avatar (string or null) the stored avatar is
overwritten with a value computed from the request alone — empty string
and unparsable data URIs become NULL — while `display_name` and `bio`
keep their stored values unless the request defines them; but a request
that omits `avatar_url` fails with 500 (rejected `undefined` bind
parameter) and leaves every column unchanged. -/
theorem updateProfile_avatar_unconditional (sess uid : ℤ) (name bio avatar : ReqField)
    (stamp : ℕ) (db : List UserRow) (u : UserRow)
    (hs : sess = uid) (hu : u ∈ db) (hid : u.id = uid) (ha : avatar ≠ ReqField.undefV) :
    (updateProfile sess uid name bio avatar stamp db).2 = 200 ∧
    { u with
        display_name := if name != ReqField.undefV then toColumn name else u.display_name,
        bio := if bio != ReqField.undefV then toColumn bio else u.bio,
        avatar_url := toColumn (finalAvatarValue avatar uid stamp) }
      ∈ (updateProfile sess uid name bio avatar stamp db).1 ∧
    updateProfile sess uid name bio ReqField.undefV stamp db = (db, 500) := by
  have hne : (sess != uid) = false := by simp [hs]
  have hfa : (finalAvatarValue avatar uid stamp == ReqField.undefV) = false := by
    simp only [beq_eq_false_iff_ne, ne_eq]
    rw [finalAvatarValue_undefined]
    exact ha
  refine ⟨?_, ?_, ?_⟩
  · unfold updateProfile
    rw [if_neg (by simp [hne]), if_neg (by simp [hfa])]
  · unfold updateProfile
    rw [if_neg (by simp [hne]), if_neg (by simp [hfa])]
    simp only
    have hmem := List.mem_map_of_mem (l := db) (a := u)
      (f := fun u : UserRow =>
        if u.id == uid then
          { u with
            display_name := if name != ReqField.undefV then toColumn name else u.display_name,
            bio := if bio != ReqField.undefV then toColumn bio else u.bio,
            avatar_url := toColumn (finalAvatarValue avatar uid stamp) }
        else u) hu
    dsimp only at hmem
    rw [if_pos (show (u.id == uid) = true by simp [hid])] at hmem
    exact hmem
  · unfold updateProfile
    rw [if_neg (by simp [hne]), if_pos (by simp [finalAvatarValue])]

theorem updateProfile_avatar_unconditional_w :
    (updateProfile 1 1 (ReqField.str "NewName") ReqField.undefV (ReqField.str "") 0 profileDb1).2 =
      200 ∧
    { profileU1 with
        display_name :=
          if ReqField.str "NewName" != ReqField.undefV then toColumn (ReqField.str "NewName")
          else profileU1.display_name,
        bio := if ReqField.undefV != ReqField.undefV then toColumn ReqField.undefV else profileU1.bio,
        avatar_url := toColumn (finalAvatarValue (ReqField.str "") 1 0) }
      ∈ (updateProfile 1 1 (ReqField.str "NewName") ReqField.undefV (ReqField.str "") 0
          profileDb1).1 ∧
    updateProfile 1 1 (ReqField.str "NewName") ReqField.undefV ReqField.undefV 0 profileDb1 =
      (profileDb1, 500) :=
  updateProfile_avatar_unconditional 1 1 (ReqField.str "NewName") ReqField.undefV
    (ReqField.str "") 0 profileDb1 profileU1 rfl (by decide) rfl (by decide)
